import Mathlib

/-!
Verification of the pricing/discount derivation engine, the order-level
aggregation, the export adapter and the order-form state machine of the
order confirmation modal (`OrderConfirmationModal` and its embedded
`ProductRow`), as shallowly embedded below.

Numbers are modelled as exact rationals.  Where the JavaScript source can
produce a non-finite IEEE value (a division whose divisor may be zero), the
result type is `JSNum`, a rational extended with `NaN` and the two
infinities, with JavaScript's arithmetic on those special values.  The sign
of zero is not modelled: every zero arising in the translated expressions
is a positive zero in the source.

JavaScript truthiness drives all the guards in the source (`product.vat ?`,
`if (product.publicPrice)` and so on): for a number-or-undefined field the
guard passes exactly when the field is present with a nonzero (non-NaN)
value.  `optTruthy` captures this for optional rational fields.
-/

/-- A JavaScript number: a finite rational, an infinity, or NaN. -/
inductive JSNum where
  | nan
  | posInf
  | negInf
  | fin (q : ℚ)
deriving DecidableEq, Repr

namespace JSNum

/-- JavaScript subtraction on `JSNum`. -/
def sub : JSNum → JSNum → JSNum
  | nan, _ => nan
  | _, nan => nan
  | posInf, posInf => nan
  | posInf, negInf => posInf
  | posInf, fin _ => posInf
  | negInf, negInf => nan
  | negInf, posInf => negInf
  | negInf, fin _ => negInf
  | fin _, posInf => negInf
  | fin _, negInf => posInf
  | fin a, fin b => fin (a - b)

/-- JavaScript multiplication on `JSNum`. -/
def mul : JSNum → JSNum → JSNum
  | nan, _ => nan
  | _, nan => nan
  | posInf, posInf => posInf
  | posInf, negInf => negInf
  | negInf, posInf => negInf
  | negInf, negInf => posInf
  | posInf, fin b => if b = 0 then nan else if 0 < b then posInf else negInf
  | fin a, posInf => if a = 0 then nan else if 0 < a then posInf else negInf
  | negInf, fin b => if b = 0 then nan else if 0 < b then negInf else posInf
  | fin a, negInf => if a = 0 then nan else if 0 < a then negInf else posInf
  | fin a, fin b => fin (a * b)

/-- JavaScript division on `JSNum` (zero treated as positive zero). -/
def div : JSNum → JSNum → JSNum
  | nan, _ => nan
  | _, nan => nan
  | posInf, posInf => nan
  | posInf, negInf => nan
  | negInf, posInf => nan
  | negInf, negInf => nan
  | posInf, fin b => if 0 ≤ b then posInf else negInf
  | negInf, fin b => if 0 ≤ b then negInf else posInf
  | fin _, posInf => fin 0
  | fin _, negInf => fin 0
  | fin a, fin b =>
      if b = 0 then (if a = 0 then nan else if 0 < a then posInf else negInf)
      else fin (a / b)

/-- JavaScript truthiness of a number: false exactly for zero and NaN. -/
def truthy : JSNum → Bool
  | nan => false
  | posInf => true
  | negInf => true
  | fin q => q != 0

/-- The `isNaN` predicate of JavaScript, restricted to numbers. -/
def isNaN : JSNum → Bool
  | nan => true
  | _ => false

/-- Whether the value is a finite number (neither NaN nor an infinity). -/
def isFinite : JSNum → Bool
  | fin _ => true
  | _ => false

/-- The JavaScript comparison `x > 0`, which is false on NaN. -/
def gtZero : JSNum → Bool
  | nan => false
  | posInf => true
  | negInf => false
  | fin q => decide (0 < q)

end JSNum

/-- One tier in a supplier's quantity-based pricing table
(interface `PriceBreakdown` of the source). -/
structure PriceBreakdown where
  quantity : ℚ
  unitPrice : ℚ
  supplier : String
  stock : ℚ
deriving DecidableEq, Repr

/-- One order line (interface `ProductItem` of the source).  Optional fields
are `Option ℚ`; a present value is a finite number. -/
structure ProductItem where
  id : String
  name : String
  code : String
  supplier : String
  quantity : ℚ
  unitPrice : ℚ
  priceBreakdowns : Option (List PriceBreakdown) := none
  averagePrice : Option ℚ := none
  publicPrice : Option ℚ := none
  vat : Option ℚ := none
deriving DecidableEq, Repr

/-- Truthiness of an optional numeric field: present and nonzero. -/
def optTruthy : Option ℚ → Bool
  | none => false
  | some q => q != 0

@[simp] theorem optTruthy_none : optTruthy none = false := rfl

@[simp] theorem optTruthy_some (q : ℚ) : optTruthy (some q) = (q != 0) := rfl

/-- `totalPrice` of `ProductRow`: `product.quantity * product.unitPrice`. -/
def totalPrice (p : ProductItem) : ℚ := p.quantity * p.unitPrice

/-- `savingsVsAverage` of `ProductRow`:
`product.averagePrice ? (product.averagePrice - product.unitPrice) * product.quantity : 0`. -/
def savingsVsAverage (p : ProductItem) : ℚ :=
  if optTruthy p.averagePrice then (p.averagePrice.getD 0 - p.unitPrice) * p.quantity else 0

/-- `grossDiscount` of `ProductRow`:
`product.publicPrice ? product.publicPrice - product.unitPrice : 0`.
The guard makes the divisor of `grossDiscountPercent` nonzero, so both stay
finite and are modelled directly in `ℚ`. -/
def grossDiscount (p : ProductItem) : ℚ :=
  if optTruthy p.publicPrice then p.publicPrice.getD 0 - p.unitPrice else 0

/-- `grossDiscountPercent` of `ProductRow`:
`product.publicPrice ? (grossDiscount / product.publicPrice) * 100 : 0`. -/
def grossDiscountPercent (p : ProductItem) : ℚ :=
  if optTruthy p.publicPrice then grossDiscount p / p.publicPrice.getD 0 * 100 else 0

/-- `netPublicPrice` of `ProductRow`:
`product.publicPrice && product.vat ? product.publicPrice / (1 + product.vat / 100) : 0`.
The divisor `1 + vat/100` is not guarded against zero, so the result is a
`JSNum`. -/
def netPublicPrice (p : ProductItem) : JSNum :=
  if optTruthy p.publicPrice && optTruthy p.vat then
    JSNum.div (JSNum.fin (p.publicPrice.getD 0)) (JSNum.fin (1 + p.vat.getD 0 / 100))
  else JSNum.fin 0

/-- `netDiscount` of `ProductRow`:
`netPublicPrice ? netPublicPrice - product.unitPrice : 0`. -/
def netDiscount (p : ProductItem) : JSNum :=
  if (netPublicPrice p).truthy then JSNum.sub (netPublicPrice p) (JSNum.fin p.unitPrice)
  else JSNum.fin 0

/-- `netDiscountPercent` of `ProductRow`:
`netPublicPrice ? (netDiscount / netPublicPrice) * 100 : 0`. -/
def netDiscountPercent (p : ProductItem) : JSNum :=
  if (netPublicPrice p).truthy then
    JSNum.mul (JSNum.div (netDiscount p) (netPublicPrice p)) (JSNum.fin 100)
  else JSNum.fin 0

/-- `uniqueSuppliers` of the modal:
`new Set(products.map(product => product.supplier)).size`. -/
def uniqueSuppliers (products : List ProductItem) : Nat :=
  (products.map (fun p => p.supplier)).toFinset.card

/-- `totalQuantity` of the modal:
`products.reduce((sum, product) => sum + product.quantity, 0)`. -/
def totalQuantity (products : List ProductItem) : ℚ :=
  products.foldl (fun sum p => sum + p.quantity) 0

/-- `totalSavingsVsAverage` of the modal: a reduce that adds
`(product.averagePrice - product.unitPrice) * product.quantity` when
`product.averagePrice` is truthy and skips the product otherwise. -/
def totalSavingsVsAverage (products : List ProductItem) : ℚ :=
  products.foldl
    (fun sum p =>
      if optTruthy p.averagePrice then sum + (p.averagePrice.getD 0 - p.unitPrice) * p.quantity
      else sum)
    0

/-- The numerator of `averageDiscountPercent`: a reduce that adds
`((product.publicPrice - product.unitPrice) / product.publicPrice) * 100`
when `product.publicPrice` is truthy and skips the product otherwise. -/
def discountSum (products : List ProductItem) : ℚ :=
  products.foldl
    (fun sum p =>
      if optTruthy p.publicPrice then
        sum + (p.publicPrice.getD 0 - p.unitPrice) / p.publicPrice.getD 0 * 100
      else sum)
    0

/-- The denominator of `averageDiscountPercent`:
`products.filter(p => p.publicPrice).length`. -/
def eligibleCount (products : List ProductItem) : Nat :=
  (products.filter (fun p => optTruthy p.publicPrice)).length

/-- `averageDiscountPercent` of the modal: the reduce divided by the filtered
length, with no emptiness check, so the division is a `JSNum` division. -/
def averageDiscountPercent (products : List ProductItem) : JSNum :=
  JSNum.div (JSNum.fin (discountSum products)) (JSNum.fin (eligibleCount products))

/-- The display guard on the summary card:
`!isNaN(averageDiscountPercent) && averageDiscountPercent > 0`. -/
def avgDiscountShown (products : List ProductItem) : Bool :=
  !(averageDiscountPercent products).isNaN && (averageDiscountPercent products).gtZero

/-- An export row (interface `OrderExportProduct` consumed by
`exportOrderSummary`). -/
structure OrderExportProduct where
  id : String
  name : String
  code : String
  quantity : ℚ
  unitPrice : ℚ
  averagePrice : Option ℚ
  priceBreakdowns : Option (List PriceBreakdown)
  publicPrice : Option ℚ
  vat : Option ℚ
deriving DecidableEq, Repr

/-- The export format argument of `handleExport`. -/
inductive ExportFormat where
  | csv
  | xlsx
deriving DecidableEq, Repr

/-- The arguments `handleExport` passes to the external sink
`exportOrderSummary(orderName, exportProducts, format, userRole)`. -/
structure ExportCall where
  title : String
  rows : List OrderExportProduct
  format : ExportFormat
  role : String
deriving DecidableEq, Repr

/-- The row mapping inside `handleExport`: each product is copied field by
field into an `OrderExportProduct`. -/
def toExportProduct (p : ProductItem) : OrderExportProduct :=
  { id := p.id
    name := p.name
    code := p.code
    quantity := p.quantity
    unitPrice := p.unitPrice
    averagePrice := p.averagePrice
    priceBreakdowns := p.priceBreakdowns
    publicPrice := p.publicPrice
    vat := p.vat }

/-- `handleExport` of the modal: the title is
`orderData.orderName || 'Untitled Order'` (the default fires exactly when
the name is the empty string, the only falsy string), the rows are the
per-product mapping in list order, and the format and role are passed
through. -/
def handleExport (orderName : String) (products : List ProductItem)
    (format : ExportFormat) (userRole : String) : ExportCall :=
  { title := if orderName = "" then "Untitled Order" else orderName
    rows := products.map toExportProduct
    format := format
    role := userRole }

/-- The `priority` field of `OrderData`. -/
inductive Priority where
  | standard
  | urgent
  | scheduled
deriving DecidableEq, Repr

/-- The order metadata form state (interface `OrderData` of the source). -/
structure OrderData where
  orderName : String
  expectedDeliveryDate : String
  notes : String
  priority : Priority
  paymentMethod : String
  saveAsTemplate : Bool
  notifyOnDelivery : Bool
deriving DecidableEq, Repr

/-- The string-field update `{...prev, [name]: value}` shared by
`handleChange` (text inputs named `orderName`, `expectedDeliveryDate`,
`notes`) and `handleSelectChange` (the select named `paymentMethod`). -/
def setStringField (d : OrderData) (name value : String) : OrderData :=
  if name = "orderName" then { d with orderName := value }
  else if name = "expectedDeliveryDate" then { d with expectedDeliveryDate := value }
  else if name = "notes" then { d with notes := value }
  else if name = "paymentMethod" then { d with paymentMethod := value }
  else d

/-- The boolean-field update `{...prev, [name]: checked}` of
`handleCheckboxChange` (checkboxes named `saveAsTemplate`,
`notifyOnDelivery`). -/
def setBoolField (d : OrderData) (name : String) (checked : Bool) : OrderData :=
  if name = "saveAsTemplate" then { d with saveAsTemplate := checked }
  else if name = "notifyOnDelivery" then { d with notifyOnDelivery := checked }
  else d

/-- `handleRadioChange`: sets `priority` to the chosen value. -/
def handleRadioChange (d : OrderData) (value : Priority) : OrderData :=
  { d with priority := value }

/-- The names of the text inputs wired to `handleChange` in the form. -/
inductive TextFieldName where
  | orderName
  | expectedDeliveryDate
  | notes
deriving DecidableEq, Repr

/-- The HTML `name` attribute of a wired text input. -/
def textFieldNameStr : TextFieldName → String
  | .orderName => "orderName"
  | .expectedDeliveryDate => "expectedDeliveryDate"
  | .notes => "notes"

/-- The names of the checkboxes wired to `handleCheckboxChange`. -/
inductive CheckboxName where
  | saveAsTemplate
  | notifyOnDelivery
deriving DecidableEq, Repr

/-- The HTML `name` attribute of a wired checkbox. -/
def checkboxNameStr : CheckboxName → String
  | .saveAsTemplate => "saveAsTemplate"
  | .notifyOnDelivery => "notifyOnDelivery"

/-- A form input event of the modal: a text change, the payment-method
select change, a checkbox toggle, or the priority radio choice. -/
inductive FormEvent where
  | textChange (name : TextFieldName) (value : String)
  | selectChange (value : String)
  | checkboxToggle (name : CheckboxName) (checked : Bool)
  | radioChoice (value : Priority)
deriving DecidableEq, Repr

/-- Dispatch of a form event to its handler, as wired in the form markup. -/
def applyEvent (d : OrderData) : FormEvent → OrderData
  | .textChange n v => setStringField d (textFieldNameStr n) v
  | .selectChange v => setStringField d "paymentMethod" v
  | .checkboxToggle n b => setBoolField d (checkboxNameStr n) b
  | .radioChoice p => handleRadioChange d p

/-- An observable call the modal makes to its caller-supplied callbacks. -/
inductive ModalEvent where
  | submitted (d : OrderData)
  | draftSaved
  | closed
deriving DecidableEq, Repr

/-- ECMAScript `String.prototype.trim`: strips leading and trailing
whitespace.  Defined structurally over the character list so that it
evaluates on concrete strings. -/
def jsTrim (s : String) : String :=
  ⟨((s.data.dropWhile Char.isWhitespace).reverse.dropWhile Char.isWhitespace).reverse⟩

/-- The submit button's enabled state: the source disables it with
`disabled={!orderData.orderName.trim()}`, so it is enabled exactly when the
trimmed name is non-empty. -/
def submitEnabled (d : OrderData) : Bool :=
  !(jsTrim d.orderName == "")

/-- Clicking the submit button: when enabled it runs
`onSubmitOrder(orderData); onClose();`; when disabled the button does not
fire. -/
def submitClick (d : OrderData) : List ModalEvent :=
  if submitEnabled d then [ModalEvent.submitted d, ModalEvent.closed] else []

/-- Clicking the save-draft button: it is never disabled and runs
`onSaveAsDraft(); onClose();`. -/
def saveDraftClick (_ : OrderData) : List ModalEvent :=
  [ModalEvent.draftSaved, ModalEvent.closed]

/-- A fold that adds `f p` at every step equals the initial value plus the
sum of the mapped list. -/
theorem foldl_add_eq_sum (f : ProductItem → ℚ) (l : List ProductItem) (init : ℚ) :
    l.foldl (fun s p => s + f p) init = init + (l.map f).sum := by
  induction l generalizing init with
  | nil => simp
  | cons a t ih => simp [ih]; ring

/-- A guarded fold equals the initial value plus the sum of the
guard-selected terms. -/
theorem foldl_ite_eq_sum (c : ProductItem → Bool) (f : ProductItem → ℚ) (l : List ProductItem)
    (init : ℚ) :
    l.foldl (fun s p => if c p then s + f p else s) init
      = init + (l.map (fun p => if c p then f p else 0)).sum := by
  induction l generalizing init with
  | nil => simp
  | cons a t ih =>
    by_cases h : c a
    · simp [h, ih]; ring
    · simp [h, ih]

/-- `totalQuantity` is the sum of the quantities. -/
theorem totalQuantity_eq_sum (l : List ProductItem) :
    totalQuantity l = (l.map (fun p => p.quantity)).sum := by
  have h := foldl_add_eq_sum (fun p => p.quantity) l 0
  simpa [totalQuantity] using h

/-- The aggregate savings fold sums exactly the per-row `savingsVsAverage`. -/
theorem totalSavings_eq_sum (l : List ProductItem) :
    totalSavingsVsAverage l = (l.map savingsVsAverage).sum := by
  have h := foldl_ite_eq_sum (fun p => optTruthy p.averagePrice)
      (fun p => (p.averagePrice.getD 0 - p.unitPrice) * p.quantity) l 0
  simpa [totalSavingsVsAverage, savingsVsAverage] using h

/-- `grossDiscountPercent` written as a single conditional. -/
theorem grossDiscountPercent_eq (p : ProductItem) :
    grossDiscountPercent p
      = if optTruthy p.publicPrice then
          (p.publicPrice.getD 0 - p.unitPrice) / p.publicPrice.getD 0 * 100
        else 0 := by
  by_cases h : optTruthy p.publicPrice <;> simp [grossDiscountPercent, grossDiscount, h]

/-- The numerator fold of `averageDiscountPercent` sums exactly the per-row
`grossDiscountPercent`. -/
theorem discountSum_eq_sum (l : List ProductItem) :
    discountSum l = (l.map grossDiscountPercent).sum := by
  have h := foldl_ite_eq_sum (fun p => optTruthy p.publicPrice)
      (fun p => (p.publicPrice.getD 0 - p.unitPrice) / p.publicPrice.getD 0 * 100) l 0
  simp only [discountSum] at *
  rw [h, zero_add]
  exact congrArg List.sum (List.map_congr_left fun p _ => (grossDiscountPercent_eq p).symm)

/-- When the VAT divisor `1 + vat/100` cannot vanish, `netPublicPrice` is a
finite number. -/
theorem netPublicPrice_fin (p : ProductItem) (h : ∀ v, p.vat = some v → 1 + v / 100 ≠ 0) :
    ∃ x, netPublicPrice p = JSNum.fin x := by
  unfold netPublicPrice
  cases hv : p.vat with
  | none => exact ⟨0, by simp [hv]⟩
  | some v =>
    by_cases hpp : optTruthy p.publicPrice
    · by_cases hvz : v = 0
      · exact ⟨0, by simp [hv, hvz]⟩
      · refine ⟨p.publicPrice.getD 0 / (1 + v / 100), ?_⟩
        simp [hv, hpp, hvz, JSNum.div, h v hv]
    · exact ⟨0, by simp [hpp]⟩

/-- When `netPublicPrice` is finite, so is `netDiscount`. -/
theorem netDiscount_fin (p : ProductItem) (h : ∀ v, p.vat = some v → 1 + v / 100 ≠ 0) :
    ∃ x, netDiscount p = JSNum.fin x := by
  obtain ⟨x, hx⟩ := netPublicPrice_fin p h
  unfold netDiscount
  rw [hx]
  by_cases hz : x = 0
  · exact ⟨0, by simp [JSNum.truthy, hz]⟩
  · exact ⟨x - p.unitPrice, by simp [JSNum.truthy, hz, JSNum.sub]⟩

/-- When `netPublicPrice` is finite, `netDiscountPercent` is finite as well:
the division is guarded by the truthiness of its divisor. -/
theorem netDiscountPercent_fin (p : ProductItem)
    (h : ∀ v, p.vat = some v → 1 + v / 100 ≠ 0) :
    ∃ x, netDiscountPercent p = JSNum.fin x := by
  obtain ⟨x, hx⟩ := netPublicPrice_fin p h
  unfold netDiscountPercent netDiscount
  rw [hx]
  by_cases hz : x = 0
  · exact ⟨0, by simp [JSNum.truthy, hz]⟩
  · refine ⟨(x - p.unitPrice) / x * 100, ?_⟩
    simp [JSNum.truthy, hz, JSNum.sub, JSNum.div, JSNum.mul]

/-- The round-trip product of the spec: quantity 3, unit price 10, public
price 15, VAT 20 %. -/
def sampleProduct : ProductItem :=
  { id := "RT-1", name := "Sample", code := "S-1", supplier := "ACME",
    quantity := 3, unitPrice := 10, publicPrice := some 15, vat := some 20 }

/-- A product with no public price at all. -/
def noPublicProduct : ProductItem :=
  { id := "NP-1", name := "NoPublic", code := "N-1", supplier := "ACME",
    quantity := 2, unitPrice := 4 }

/-- A product whose VAT is present but equal to 0. -/
def zeroVatProduct : ProductItem :=
  { id := "ZV-1", name := "ZeroVat", code := "Z-1", supplier := "ACME",
    quantity := 1, unitPrice := 10, publicPrice := some 15, vat := some 0 }

/-- A product whose average price is present but equal to 0. -/
def zeroAvgProduct : ProductItem :=
  { id := "ZA-1", name := "ZeroAvg", code := "Z-2", supplier := "ACME",
    quantity := 2, unitPrice := 5, averagePrice := some 0 }

/-- A product whose VAT is −100, making the divisor `1 + vat/100` vanish. -/
def negVatProduct : ProductItem :=
  { id := "NV-1", name := "NegVat", code := "N-2", supplier := "ACME",
    quantity := 3, unitPrice := 10, publicPrice := some 15, vat := some (-100) }

/-- A product whose public price is present but equal to 0. -/
def zeroPublicProduct : ProductItem :=
  { id := "ZP-1", name := "ZeroPublic", code := "Z-3", supplier := "ACME",
    quantity := 1, unitPrice := 3, publicPrice := some 0 }

/-- C1 counterexample: for the concrete singleton list whose product has no
`publicPrice`, `averageDiscountPercent` is NaN, not a "not applicable"
sentinel — the claim that it is never NaN is false on the code. -/
theorem avgDiscount_nan_cex :
    noPublicProduct.publicPrice = none ∧
    averageDiscountPercent [noPublicProduct] = JSNum.nan ∧
    (averageDiscountPercent [noPublicProduct]).isNaN = true := by
  refine ⟨rfl, ?_, ?_⟩ <;>
    norm_num [averageDiscountPercent, discountSum, eligibleCount, noPublicProduct,
      JSNum.div, JSNum.isNaN, List.foldl, List.filter]

/-- C1 (amended): over a list in which no product has a `publicPrice`, the
`averageDiscountPercent` computation yields NaN (a 0/0 division over the
empty eligible subset); the NaN is only suppressed at display time by the
`!isNaN(...)` guard, so it is never rendered. -/
theorem avgDiscount_noPublicPrice_nan (l : List ProductItem)
    (h : ∀ p ∈ l, p.publicPrice = none) :
    averageDiscountPercent l = JSNum.nan ∧ avgDiscountShown l = false := by
  have hsum : discountSum l = 0 := by
    rw [discountSum_eq_sum]
    apply List.sum_eq_zero
    intro x hx
    obtain ⟨p, hp, rfl⟩ := List.mem_map.mp hx
    simp [grossDiscountPercent, h p hp]
  have hnil : l.filter (fun p => optTruthy p.publicPrice) = [] :=
    List.filter_eq_nil_iff.mpr (fun p hp => by simp [h p hp])
  have hcnt : eligibleCount l = 0 := by simp [eligibleCount, hnil]
  constructor
  · simp [averageDiscountPercent, hsum, hcnt, JSNum.div]
  · simp [avgDiscountShown, averageDiscountPercent, hsum, hcnt, JSNum.div, JSNum.isNaN]

/-- Witness for C1 (amended) at the singleton list `[noPublicProduct]`. -/
theorem avgDiscount_noPublicPrice_nan_witness :
    averageDiscountPercent [noPublicProduct] = JSNum.nan ∧
    avgDiscountShown [noPublicProduct] = false :=
  avgDiscount_noPublicPrice_nan [noPublicProduct]
    (fun p hp => by
      simp only [List.mem_singleton] at hp
      rw [hp]
      rfl)

/-- C2 counterexample: `zeroVatProduct` has both `publicPrice` (15) and
`vat` (0) present, yet `netPublicPrice` is the 0 sentinel instead of the
computed `15 / (1 + 0/100) = 15` — the claim that presence of both fields
yields the computed value is false on the code. -/
theorem netPublicPrice_zeroVat_cex :
    zeroVatProduct.publicPrice = some 15 ∧ zeroVatProduct.vat = some 0 ∧
    netPublicPrice zeroVatProduct = JSNum.fin 0 ∧
    (15 : ℚ) / (1 + 0 / 100) = 15 ∧ (15 : ℚ) ≠ 0 := by
  refine ⟨rfl, rfl, ?_, by norm_num, by norm_num⟩
  norm_num [netPublicPrice, zeroVatProduct]

/-- C2 (amended): `netPublicPrice p` equals `publicPrice / (1 + vat/100)`
whenever both fields are present and nonzero (and the divisor `1 + vat/100`
does not vanish), and equals the 0 sentinel whenever either field is absent
or zero — the truthiness guard treats present-zero like absent. -/
theorem netPublicPrice_characterization (p : ProductItem) :
    ((p.publicPrice = none ∨ p.publicPrice = some 0 ∨ p.vat = none ∨ p.vat = some 0) →
      netPublicPrice p = JSNum.fin 0) ∧
    (∀ pp v, p.publicPrice = some pp → p.vat = some v → pp ≠ 0 → v ≠ 0 →
      1 + v / 100 ≠ 0 → netPublicPrice p = JSNum.fin (pp / (1 + v / 100))) := by
  constructor
  · intro h
    rcases h with h | h | h | h <;> simp [netPublicPrice, h]
  · intro pp v hpp hv h1 h2 h3
    simp [netPublicPrice, hpp, hv, h1, h2, JSNum.div, h3]

/-- Witness for C2 (amended): the sentinel case at `zeroVatProduct` and the
computed case at `sampleProduct`. -/
theorem netPublicPrice_characterization_witness :
    netPublicPrice zeroVatProduct = JSNum.fin 0 ∧
    netPublicPrice sampleProduct = JSNum.fin (15 / (1 + 20 / 100)) :=
  ⟨(netPublicPrice_characterization zeroVatProduct).1 (Or.inr (Or.inr (Or.inr rfl))),
   (netPublicPrice_characterization sampleProduct).2 15 20 rfl rfl
     (by norm_num) (by norm_num) (by norm_num)⟩

/-- C3 counterexample: `zeroAvgProduct` has `averagePrice` present (0) with
unit price 5 and quantity 2, yet `savingsVsAverage` is 0 instead of the
claimed `(0 − 5) × 2 = −10` — the claim that presence yields the computed
value is false on the code. -/
theorem savings_zeroAvg_cex :
    zeroAvgProduct.averagePrice = some 0 ∧
    savingsVsAverage zeroAvgProduct = 0 ∧
    ((0 : ℚ) - zeroAvgProduct.unitPrice) * zeroAvgProduct.quantity = -10 ∧
    ((0 : ℚ) - zeroAvgProduct.unitPrice) * zeroAvgProduct.quantity ≠
      savingsVsAverage zeroAvgProduct := by
  refine ⟨rfl, ?_, ?_, ?_⟩ <;>
    norm_num [savingsVsAverage, zeroAvgProduct]

/-- C3 (amended): `savingsVsAverage` is 0 when `averagePrice` is absent or
equal to 0, and `(averagePrice − unitPrice) × quantity` (signed, possibly
negative) when it is present and nonzero; `totalSavingsVsAverage` is the
signed sum of `savingsVsAverage` over the list. -/
theorem savings_characterization (p : ProductItem) (l : List ProductItem) :
    ((p.averagePrice = none ∨ p.averagePrice = some 0) → savingsVsAverage p = 0) ∧
    (∀ a, p.averagePrice = some a → a ≠ 0 →
      savingsVsAverage p = (a - p.unitPrice) * p.quantity) ∧
    totalSavingsVsAverage l = (l.map savingsVsAverage).sum := by
  refine ⟨?_, ?_, totalSavings_eq_sum l⟩
  · intro h
    rcases h with h | h <;> simp [savingsVsAverage, h]
  · intro a ha haz
    simp [savingsVsAverage, ha, haz]

/-- Witness for C3 (amended): the sentinel case at `zeroAvgProduct`, the
computed case at a product with average price 6, and the sum over the
two-product list of the spec, whose total savings is 2. -/
theorem savings_characterization_witness :
    savingsVsAverage zeroAvgProduct = 0 ∧
    savingsVsAverage
        { id := "SV-1", name := "Avg6", code := "A-1", supplier := "ACME",
          quantity := 2, unitPrice := 5, averagePrice := some 6 }
      = (6 - 5) * 2 ∧
    totalSavingsVsAverage [zeroAvgProduct]
      = ([zeroAvgProduct].map savingsVsAverage).sum :=
  ⟨(savings_characterization zeroAvgProduct []).1 (Or.inr rfl),
   (savings_characterization
      { id := "SV-1", name := "Avg6", code := "A-1", supplier := "ACME",
        quantity := 2, unitPrice := 5, averagePrice := some 6 } []).2.1 6 rfl
     (by norm_num),
   (savings_characterization zeroAvgProduct [zeroAvgProduct]).2.2⟩

/-- C4 counterexample: `negVatProduct` (publicPrice 15, vat −100) makes the
unguarded divisor `1 + vat/100` vanish: `netPublicPrice` is Infinity and
`netDiscountPercent` is NaN, so the claim that no division lets NaN or
Infinity escape is false on the code. -/
theorem netDiscountPercent_negVat_cex :
    negVatProduct.vat = some (-100) ∧
    netPublicPrice negVatProduct = JSNum.posInf ∧
    netDiscountPercent negVatProduct = JSNum.nan ∧
    (netDiscountPercent negVatProduct).isFinite = false := by
  refine ⟨rfl, ?_, ?_, ?_⟩ <;>
    norm_num [netDiscountPercent, netDiscount, netPublicPrice, negVatProduct,
      JSNum.div, JSNum.sub, JSNum.mul, JSNum.truthy, JSNum.isFinite]

/-- C4 (amended): `grossDiscount` and `grossDiscountPercent` are 0 when
`publicPrice` is absent or 0 (and are rationals by construction, their one
division being guarded by a nonzero divisor); `netDiscountPercent` is 0
when `netPublicPrice` is the 0 sentinel; and the whole net chain is finite
provided the divisor `1 + vat/100` does not vanish (vat ≠ −100). -/
theorem discountPercent_guards (p : ProductItem) :
    ((p.publicPrice = none ∨ p.publicPrice = some 0) →
      grossDiscount p = 0 ∧ grossDiscountPercent p = 0) ∧
    (netPublicPrice p = JSNum.fin 0 → netDiscount p = JSNum.fin 0 ∧
      netDiscountPercent p = JSNum.fin 0) ∧
    ((∀ v, p.vat = some v → 1 + v / 100 ≠ 0) →
      (netPublicPrice p).isFinite = true ∧ (netDiscount p).isFinite = true ∧
      (netDiscountPercent p).isFinite = true) := by
  refine ⟨?_, ?_, ?_⟩
  · intro h
    rcases h with h | h <;> simp [grossDiscount, grossDiscountPercent, h]
  · intro h
    constructor <;> simp [netDiscount, netDiscountPercent, h, JSNum.truthy]
  · intro h
    obtain ⟨x, hx⟩ := netPublicPrice_fin p h
    obtain ⟨y, hy⟩ := netDiscount_fin p h
    obtain ⟨z, hz⟩ := netDiscountPercent_fin p h
    exact ⟨by simp [hx, JSNum.isFinite], by simp [hy, JSNum.isFinite],
      by simp [hz, JSNum.isFinite]⟩

/-- Witness for C4 (amended) at `zeroPublicProduct` (sentinel cases) and
`sampleProduct` (finite net chain with vat 20). -/
theorem discountPercent_guards_witness :
    (grossDiscount zeroPublicProduct = 0 ∧ grossDiscountPercent zeroPublicProduct = 0) ∧
    (netDiscountPercent sampleProduct).isFinite = true :=
  ⟨(discountPercent_guards zeroPublicProduct).1 (Or.inr rfl),
   ((discountPercent_guards sampleProduct).2.2
      (fun v hv => by
        simp only [sampleProduct, Option.some_inj] at hv
        rw [← hv]
        norm_num)).2.2⟩

/-- C5: the round-trip product {quantity 3, unitPrice 10, publicPrice 15,
vat 20} yields grossDiscount 5, grossDiscountPercent 100/3 ≈ 33.33,
netPublicPrice 12.5, netDiscount 2.5 and netDiscountPercent 20. -/
theorem sample_round_trip :
    grossDiscount sampleProduct = 5 ∧
    grossDiscountPercent sampleProduct = 100 / 3 ∧
    (3333 : ℚ) / 100 < grossDiscountPercent sampleProduct ∧
    grossDiscountPercent sampleProduct < (3334 : ℚ) / 100 ∧
    netPublicPrice sampleProduct = JSNum.fin (25 / 2) ∧
    netDiscount sampleProduct = JSNum.fin (5 / 2) ∧
    netDiscountPercent sampleProduct = JSNum.fin 20 := by
  refine ⟨?_, ?_, ?_, ?_, ?_, ?_, ?_⟩ <;>
    norm_num [grossDiscount, grossDiscountPercent, netPublicPrice, netDiscount,
      netDiscountPercent, sampleProduct, JSNum.div, JSNum.sub, JSNum.mul, JSNum.truthy]

/-- C6: every aggregate — totalQuantity, uniqueSuppliers,
totalSavingsVsAverage and averageDiscountPercent — is invariant under
permutation of the product list. -/
theorem aggregates_perm_invariant (l1 l2 : List ProductItem) (h : l1.Perm l2) :
    totalQuantity l1 = totalQuantity l2 ∧
    uniqueSuppliers l1 = uniqueSuppliers l2 ∧
    totalSavingsVsAverage l1 = totalSavingsVsAverage l2 ∧
    averageDiscountPercent l1 = averageDiscountPercent l2 := by
  refine ⟨?_, ?_, ?_, ?_⟩
  · rw [totalQuantity_eq_sum, totalQuantity_eq_sum]
    exact (h.map _).sum_eq
  · unfold uniqueSuppliers
    rw [List.toFinset_eq_of_perm _ _ (h.map _)]
  · rw [totalSavings_eq_sum, totalSavings_eq_sum]
    exact (h.map _).sum_eq
  · unfold averageDiscountPercent
    rw [discountSum_eq_sum, discountSum_eq_sum, (h.map _).sum_eq]
    unfold eligibleCount
    rw [(h.filter _).length_eq]

/-- A first product for the permutation witness. -/
def permProductA : ProductItem :=
  { id := "PA", name := "A", code := "A-9", supplier := "S1",
    quantity := 2, unitPrice := 5, averagePrice := some 6,
    publicPrice := some 10, vat := some 10 }

/-- A second product for the permutation witness. -/
def permProductB : ProductItem :=
  { id := "PB", name := "B", code := "B-9", supplier := "S2",
    quantity := 1, unitPrice := 8, averagePrice := some 8,
    publicPrice := some 12, vat := some 4 }

/-- Witness for C6 at the two-element swap. -/
theorem aggregates_perm_invariant_witness :
    totalQuantity [permProductA, permProductB] = totalQuantity [permProductB, permProductA] ∧
    uniqueSuppliers [permProductA, permProductB]
      = uniqueSuppliers [permProductB, permProductA] ∧
    totalSavingsVsAverage [permProductA, permProductB]
      = totalSavingsVsAverage [permProductB, permProductA] ∧
    averageDiscountPercent [permProductA, permProductB]
      = averageDiscountPercent [permProductB, permProductA] :=
  aggregates_perm_invariant [permProductA, permProductB] [permProductB, permProductA]
    (List.Perm.swap permProductB permProductA [])

/-- C7: submit is enabled exactly when the trimmed order name is non-empty
(disabled for the whitespace-only name, enabled for "PO-42"); when it fires
it emits the submit callback with the full `OrderData` and then the close
callback; save-draft is always enabled and emits the draft callback and
then the close callback. -/
theorem submit_draft_actions (d : OrderData) :
    (submitEnabled d = true ↔ jsTrim d.orderName ≠ "") ∧
    (d.orderName = "   " → submitClick d = []) ∧
    (d.orderName = "PO-42" →
      submitClick d = [ModalEvent.submitted d, ModalEvent.closed]) ∧
    (submitEnabled d = true →
      submitClick d = [ModalEvent.submitted d, ModalEvent.closed]) ∧
    (submitEnabled d = false → submitClick d = []) ∧
    saveDraftClick d = [ModalEvent.draftSaved, ModalEvent.closed] := by
  refine ⟨?_, ?_, ?_, ?_, ?_, rfl⟩
  · simp [submitEnabled]
  · intro h
    have ht : jsTrim d.orderName = "" := by rw [h]; rfl
    simp [submitClick, submitEnabled, ht]
  · intro h
    have ht : jsTrim d.orderName = "PO-42" := by rw [h]; rfl
    simp [submitClick, submitEnabled, ht]
  · intro h
    simp [submitClick, h]
  · intro h
    simp [submitClick, h]

/-- The order metadata used by the C7 witness. -/
def witnessOrder : OrderData :=
  { orderName := "PO-42", expectedDeliveryDate := "2026-01-01", notes := "",
    priority := Priority.urgent, paymentMethod := "Invoice 30 days",
    saveAsTemplate := false, notifyOnDelivery := false }

/-- Witness for C7 at `witnessOrder` (name "PO-42") and at the same order
with a whitespace-only name. -/
theorem submit_draft_actions_witness :
    submitClick witnessOrder = [ModalEvent.submitted witnessOrder, ModalEvent.closed] ∧
    submitClick { witnessOrder with orderName := "   " } = [] ∧
    saveDraftClick witnessOrder = [ModalEvent.draftSaved, ModalEvent.closed] :=
  ⟨(submit_draft_actions witnessOrder).2.2.1 rfl,
   (submit_draft_actions { witnessOrder with orderName := "   " }).2.1 rfl,
   (submit_draft_actions witnessOrder).2.2.2.2.2⟩

/-- C8: export emits one row per product in list order, copying id, name,
code, quantity and unitPrice and preserving presence of averagePrice,
priceBreakdowns, publicPrice and vat; the title is the entered order name,
defaulting to "Untitled Order" exactly when the name is empty; an empty
product list yields an empty row sequence. -/
theorem handleExport_spec (orderName : String) (products : List ProductItem)
    (format : ExportFormat) (role : String) :
    (handleExport orderName products format role).title
      = (if orderName = "" then "Untitled Order" else orderName) ∧
    (handleExport orderName products format role).format = format ∧
    (handleExport orderName products format role).role = role ∧
    (handleExport orderName products format role).rows.length = products.length ∧
    (∀ p, (toExportProduct p).id = p.id ∧ (toExportProduct p).name = p.name ∧
      (toExportProduct p).code = p.code ∧ (toExportProduct p).quantity = p.quantity ∧
      (toExportProduct p).unitPrice = p.unitPrice ∧
      (toExportProduct p).averagePrice = p.averagePrice ∧
      (toExportProduct p).priceBreakdowns = p.priceBreakdowns ∧
      (toExportProduct p).publicPrice = p.publicPrice ∧
      (toExportProduct p).vat = p.vat) ∧
    (∀ i (hi : i < (handleExport orderName products format role).rows.length)
      (hp : i < products.length),
      (handleExport orderName products format role).rows.get ⟨i, hi⟩
        = toExportProduct (products.get ⟨i, hp⟩)) ∧
    (products = [] → (handleExport orderName products format role).rows = []) := by
  refine ⟨rfl, rfl, rfl, by simp [handleExport], ?_, ?_, ?_⟩
  · intro p
    exact ⟨rfl, rfl, rfl, rfl, rfl, rfl, rfl, rfl, rfl⟩
  · intro i hi hp
    simp [handleExport, List.getElem_map]
  · intro h
    simp [handleExport, h]

/-- Witness for C8 at a singleton list and at the empty list with a blank
name. -/
theorem handleExport_spec_witness :
    (handleExport "My Order" [sampleProduct] ExportFormat.csv "Admin").title = "My Order" ∧
    (handleExport "My Order" [sampleProduct] ExportFormat.csv "Admin").rows.length = 1 ∧
    (handleExport "My Order" [sampleProduct] ExportFormat.csv "Admin").rows.get
        ⟨0, by simp [handleExport]⟩
      = toExportProduct sampleProduct ∧
    (handleExport "" [] ExportFormat.xlsx "Buyer").title = "Untitled Order" ∧
    (handleExport "" [] ExportFormat.xlsx "Buyer").rows = [] := by
  have h1 := handleExport_spec "My Order" [sampleProduct] ExportFormat.csv "Admin"
  have h2 := handleExport_spec "" ([] : List ProductItem) ExportFormat.xlsx "Buyer"
  exact ⟨h1.1, h1.2.2.2.1,
    h1.2.2.2.2.2.1 0 (by simp [handleExport]) (by simp),
    h2.1, h2.2.2.2.2.2.2 rfl⟩

/-- C9: each wired form input event — a text change on orderName,
expectedDeliveryDate or notes, the payment-method select change, a
checkbox toggle on saveAsTemplate or notifyOnDelivery, and the priority
radio choice — rewrites exactly its named field of `OrderData` and leaves
every other field unchanged (the record update touches one field only). -/
theorem applyEvent_single_field (d : OrderData) :
    (∀ v, applyEvent d (FormEvent.textChange TextFieldName.orderName v)
      = { d with orderName := v }) ∧
    (∀ v, applyEvent d (FormEvent.textChange TextFieldName.expectedDeliveryDate v)
      = { d with expectedDeliveryDate := v }) ∧
    (∀ v, applyEvent d (FormEvent.textChange TextFieldName.notes v)
      = { d with notes := v }) ∧
    (∀ v, applyEvent d (FormEvent.selectChange v) = { d with paymentMethod := v }) ∧
    (∀ b, applyEvent d (FormEvent.checkboxToggle CheckboxName.saveAsTemplate b)
      = { d with saveAsTemplate := b }) ∧
    (∀ b, applyEvent d (FormEvent.checkboxToggle CheckboxName.notifyOnDelivery b)
      = { d with notifyOnDelivery := b }) ∧
    (∀ pr, applyEvent d (FormEvent.radioChoice pr) = { d with priority := pr }) := by
  refine ⟨?_, ?_, ?_, ?_, ?_, ?_, ?_⟩ <;> intro x <;>
    simp [applyEvent, setStringField, setBoolField, handleRadioChange,
      textFieldNameStr, checkboxNameStr]

/-- C10: a `publicPrice` that is present but 0 behaves exactly like an
absent one: `grossDiscount` and `grossDiscountPercent` are 0, identical to
the absent-field variant, the product is not truthily eligible, and it
contributes to neither the numerator nor the denominator of
`averageDiscountPercent`, which is therefore the same as with the product's
`publicPrice` removed. -/
theorem publicPrice_zero_like_absent (p : ProductItem) (rest : List ProductItem)
    (h : p.publicPrice = some 0) :
    grossDiscount p = 0 ∧ grossDiscountPercent p = 0 ∧
    grossDiscount { p with publicPrice := none } = grossDiscount p ∧
    grossDiscountPercent { p with publicPrice := none } = grossDiscountPercent p ∧
    optTruthy p.publicPrice = false ∧
    eligibleCount (p :: rest) = eligibleCount rest ∧
    discountSum (p :: rest) = discountSum rest ∧
    averageDiscountPercent (p :: rest) = averageDiscountPercent rest ∧
    averageDiscountPercent (p :: rest)
      = averageDiscountPercent ({ p with publicPrice := none } :: rest) := by
  have hnt : optTruthy p.publicPrice = false := by simp [h]
  have hg : grossDiscount p = 0 := by simp [grossDiscount, hnt]
  have hgp : grossDiscountPercent p = 0 := by simp [grossDiscountPercent, hnt]
  have hcnt : eligibleCount (p :: rest) = eligibleCount rest := by
    simp [eligibleCount, List.filter_cons, hnt]
  have hcnt2 : eligibleCount ({ p with publicPrice := none } :: rest)
      = eligibleCount rest := by
    simp [eligibleCount, List.filter_cons]
  have hsum : discountSum (p :: rest) = discountSum rest := by
    rw [discountSum_eq_sum, discountSum_eq_sum, List.map_cons, List.sum_cons, hgp, zero_add]
  have hsum2 : discountSum ({ p with publicPrice := none } :: rest) = discountSum rest := by
    rw [discountSum_eq_sum, discountSum_eq_sum, List.map_cons, List.sum_cons]
    simp [grossDiscountPercent]
  refine ⟨hg, hgp, ?_, ?_, hnt, hcnt, hsum, ?_, ?_⟩
  · rw [hg]; simp [grossDiscount]
  · rw [hgp]; simp [grossDiscountPercent]
  · unfold averageDiscountPercent
    rw [hsum, hcnt]
  · unfold averageDiscountPercent
    rw [hsum, hcnt, hsum2, hcnt2]

/-- Witness for C10 at `zeroPublicProduct` with an empty remainder list. -/
theorem publicPrice_zero_like_absent_witness :
    grossDiscount zeroPublicProduct = 0 ∧
    grossDiscountPercent zeroPublicProduct = 0 ∧
    averageDiscountPercent [zeroPublicProduct]
      = averageDiscountPercent [{ zeroPublicProduct with publicPrice := none }] :=
  ⟨(publicPrice_zero_like_absent zeroPublicProduct [] rfl).1,
   (publicPrice_zero_like_absent zeroPublicProduct [] rfl).2.1,
   (publicPrice_zero_like_absent zeroPublicProduct [] rfl).2.2.2.2.2.2.2.2⟩
